import Mathlib

/-
Verification of the request-construction layer of the Watson Speech to Text
v1 client (`watson_developer_cloud/speech_to_text_v1.py`).

Each operation of `SpeechToTextV1` is embedded as a Lean function that builds
the HTTP request descriptor handed to the transport collaborator
(`WatsonService.request`), or returns an error when the operation validates
its arguments locally and fails fast.  The base class `WatsonService` is not
part of the sources; the three pieces of its behaviour this development
needs (stripping of absent query parameters, percent-encoding of path
variables, comma-joining of list parameters) are modelled from the
specification and marked as such.
-/

namespace WatsonSTT

/-- Python scalar values that operations pass as query-parameter values. -/
inductive PyVal
  | bool (b : Bool)
  | int (n : Int)
  | float (q : Rat)
  | str (s : String)
  deriving DecidableEq

/-- Python values a `CustomWord` field can hold: `None`, a string, or a list
of strings (the `sounds_like` field). -/
inductive PyObj
  | none
  | str (s : String)
  | strList (xs : List String)
  deriving DecidableEq

/-- JSON values produced by `json.dumps` on the payloads this client builds. -/
inductive Json
  | null
  | str (s : String)
  | arr (xs : List Json)
  | obj (fields : List (String × Json))

/-- Rendering of a `CustomWord` field value by `json.dumps`: Python `None`
serializes as JSON `null`. -/
def pyToJson : PyObj → Json
  | PyObj.none => Json.null
  | PyObj.str s => Json.str s
  | PyObj.strList xs => Json.arr (xs.map Json.str)

/-- The single-quote character, as used by Python `str()` on a list. -/
def squote : String := String.singleton (Char.ofNat 39)

/-- Rendering of a `PyObj` by Python string formatting, as in
`'{0}'.format(x)` on a URL template. -/
def pyStr : PyObj → String
  | PyObj.none => "None"
  | PyObj.str s => s
  | PyObj.strList xs =>
      "[" ++ String.intercalate ", " (xs.map (fun s => squote ++ s ++ squote)) ++ "]"

/-- A request body: raw bytes (audio, corpus file) or a JSON document
produced by `json.dumps`. -/
inductive Body
  | raw (bytes : String)
  | json (j : Json)

/-- One multipart file part, the `(filename, payload, content_type)` tuple
placed in the `files` mapping handed to the transport. -/
structure FilePart where
  filename : Option String
  payload : String
  mime : String

/-- The HTTP request descriptor an operation hands to the transport
collaborator `WatsonService.request`. -/
structure Request where
  method : String
  url : String
  headers : List (String × Option String)
  params : List (String × PyVal)
  data : Option Body
  files : List (String × Option FilePart)

/-- Modelled from the spec: the missing `WatsonService.request` hands the
transport "a mapping with absent entries already stripped" — a query
parameter whose value is `None` is omitted entirely from the outgoing
query-parameter mapping. -/
def stripAbsent : List (String × Option PyVal) → List (String × PyVal)
  | [] => []
  | (_, Option.none) :: ps => stripAbsent ps
  | (k, Option.some v) :: ps => (k, v) :: stripAbsent ps

/-- Hexadecimal digit character for `n < 16` (uppercase). -/
def hexDigit (n : Nat) : Char :=
  if n < 10 then Char.ofNat (48 + n) else Char.ofNat (55 + n)

/-- Modelled from the spec: the missing `WatsonService._encode_path_vars`
percent-encodes each path variable individually before substitution.
Unreserved characters are kept; every other character is replaced by a
percent sign followed by its code point in hexadecimal. -/
def percentEncodeChar (c : Char) : String :=
  if c.isAlphanum || c = '-' || c = '.' || c = '_' || c = '~' then
    String.singleton c
  else
    "%" ++ String.singleton (hexDigit (c.toNat / 16 % 16))
        ++ String.singleton (hexDigit (c.toNat % 16))

/-- Percent-encoding of a whole path variable, character by character. -/
def percentEncode (s : String) : String :=
  String.join (s.toList.map percentEncodeChar)

/-- Modelled from the spec: the missing `WatsonService._convert_list` turns a
list-valued parameter into one comma-joined string; `None` stays `None`. -/
def convert_list : Option (List String) → Option PyVal
  | Option.none => Option.none
  | Option.some xs => Option.some (PyVal.str (String.intercalate "," xs))

/-- Python truthiness of an optional string: `None` and `""` are falsy. -/
def pyTruthy : Option String → Bool
  | Option.none => false
  | Option.some s => !(s == "")

/-- The query-parameter dictionary built by `SpeechToTextV1.recognize`, in
the source's insertion order; each value may be `None`. -/
def recognizeParams (continuous inactivity_timeout keywords keywords_threshold
    max_alternatives model customization_id word_alternatives_threshold
    word_confidence timestamps interim_results profanity_filter
    smart_formatting speaker_labels customization_weight : Option PyVal) :
    List (String × Option PyVal) :=
  [("continuous", continuous),
   ("inactivity_timeout", inactivity_timeout),
   ("keywords", keywords),
   ("keywords_threshold", keywords_threshold),
   ("max_alternatives", max_alternatives),
   ("model", model),
   ("customization_id", customization_id),
   ("word_alternatives_threshold", word_alternatives_threshold),
   ("word_confidence", word_confidence),
   ("timestamps", timestamps),
   ("interim_results", interim_results),
   ("profanity_filter", profanity_filter),
   ("smart_formatting", smart_formatting),
   ("speaker_labels", speaker_labels),
   ("customization_weight", customization_weight)]

/-- `SpeechToTextV1.recognize`: POST `/v1/recognize`, content type header
from the argument, raw audio body, optional query parameters. -/
def recognize (audio content_type : String)
    (continuous inactivity_timeout keywords keywords_threshold
     max_alternatives model customization_id word_alternatives_threshold
     word_confidence timestamps interim_results profanity_filter
     smart_formatting speaker_labels customization_weight : Option PyVal) :
    Request :=
  { method := "POST"
    url := "/v1/recognize"
    headers := [("content-type", Option.some content_type)]
    params := stripAbsent (recognizeParams continuous inactivity_timeout
      keywords keywords_threshold max_alternatives model customization_id
      word_alternatives_threshold word_confidence timestamps interim_results
      profanity_filter smart_formatting speaker_labels customization_weight)
    data := Option.some (Body.raw audio)
    files := [] }

/-- `SpeechToTextV1.create_session`: POST `/v1/sessions`, all parameters
optional. -/
def create_session (model customization_id acoustic_customization_id
    customization_weight : Option PyVal) : Request :=
  { method := "POST"
    url := "/v1/sessions"
    headers := []
    params := stripAbsent
      [("model", model),
       ("customization_id", customization_id),
       ("acoustic_customization_id", acoustic_customization_id),
       ("customization_weight", customization_weight)]
    data := Option.none
    files := [] }

/-- `SpeechToTextV1.delete_session`: raises `ValueError` when `session_id`
is `None`, before any request is constructed; otherwise DELETE to the
percent-encoded session URL. -/
def delete_session (session_id : Option String) : Except String Request :=
  match session_id with
  | Option.none => Except.error "session_id must be provided"
  | Option.some sid =>
      Except.ok
        { method := "DELETE"
          url := "/v1/sessions/" ++ percentEncode sid
          headers := []
          params := []
          data := Option.none
          files := [] }

/-- `SpeechToTextV1.get_session`: raises `ValueError` when `session_id` is
`None`; otherwise GET to the percent-encoded session recognize URL. -/
def get_session (session_id : Option String) : Except String Request :=
  match session_id with
  | Option.none => Except.error "session_id must be provided"
  | Option.some sid =>
      Except.ok
        { method := "GET"
          url := "/v1/sessions/" ++ percentEncode sid ++ "/recognize"
          headers := []
          params := []
          data := Option.none
          files := [] }

/-- A Python file-like upload object: `name` is `some` exactly when the
object has a `name` attribute (`hasattr(upload, 'name')`). -/
structure Upload where
  name : Option String
  content : String

/-- The `metadata_tuple` built by `recognize_session`: `(None, metadata,
'text/plain')` when `metadata` is truthy, otherwise `None`. -/
def metadataTuple : Option String → Option FilePart
  | Option.none => Option.none
  | Option.some m =>
      if m = "" then Option.none
      else Option.some { filename := Option.none, payload := m, mime := "text/plain" }

/-- The filename chosen for the upload part: an explicit truthy
`upload_filename` wins; otherwise the upload object's `name` attribute when
it has one; otherwise the original (falsy) `upload_filename`. -/
def inferFilename (upload_filename attr_name : Option String) : Option String :=
  if pyTruthy upload_filename then upload_filename
  else
    match attr_name with
    | Option.some n => Option.some n
    | Option.none => upload_filename

/-- The content type of the upload part:
`upload_content_type or 'application/octet-stream'`. -/
def defaultMime : Option String → String
  | Option.none => "application/octet-stream"
  | Option.some ct => if ct = "" then "application/octet-stream" else ct

/-- The `upload_tuple` built by `recognize_session`: present exactly when an
upload payload is supplied. -/
def uploadTuple (upload : Option Upload)
    (upload_content_type upload_filename : Option String) : Option FilePart :=
  match upload with
  | Option.none => Option.none
  | Option.some u =>
      Option.some
        { filename := inferFilename upload_filename u.name
          payload := u.content
          mime := defaultMime upload_content_type }

/-- `SpeechToTextV1.recognize_session`: raises `ValueError` when
`session_id` is `None`, before any request is constructed; otherwise POST to
the percent-encoded session recognize URL with optional query parameters,
optional raw audio body and the two multipart file parts. -/
def recognize_session (session_id : Option String)
    (transfer_encoding : Option String) (audio : Option String)
    (content_type : String)
    (sequence_id inactivity_timeout : Option PyVal)
    (keywords : Option (List String))
    (keywords_threshold max_alternatives word_alternatives_threshold
     word_confidence timestamps profanity_filter smart_formatting
     speaker_labels : Option PyVal)
    (metadata : Option String) (upload : Option Upload)
    (upload_content_type upload_filename : Option String) :
    Except String Request :=
  match session_id with
  | Option.none => Except.error "session_id must be provided"
  | Option.some sid =>
      Except.ok
        { method := "POST"
          url := "/v1/sessions/" ++ percentEncode sid ++ "/recognize"
          headers := [("Transfer-Encoding", transfer_encoding),
                      ("content-type", Option.some content_type)]
          params := stripAbsent
            [("sequence_id", sequence_id),
             ("inactivity_timeout", inactivity_timeout),
             ("keywords", convert_list keywords),
             ("keywords_threshold", keywords_threshold),
             ("max_alternatives", max_alternatives),
             ("word_alternatives_threshold", word_alternatives_threshold),
             ("word_confidence", word_confidence),
             ("timestamps", timestamps),
             ("profanity_filter", profanity_filter),
             ("smart_formatting", smart_formatting),
             ("speaker_labels", speaker_labels)]
          data := audio.map Body.raw
          files := [("metadata", metadataTuple metadata),
                    ("upload", uploadTuple upload upload_content_type upload_filename)] }

/-- `SpeechToTextV1.create_custom_model`: `description` and `base_model` are
Python keyword defaults (`""` and `"en-US_BroadbandModel"`) injected into
the JSON body when the caller omits them. -/
def create_custom_model (name : String)
    (description base_model : Option String) : Request :=
  { method := "POST"
    url := "/v1/customizations"
    headers := [("content-type", Option.some "application/json")]
    params := []
    data := Option.some (Body.json (Json.obj
      [("name", Json.str name),
       ("description", Json.str (description.getD "")),
       ("base_model_name", Json.str (base_model.getD "en-US_BroadbandModel"))]))
    files := [] }

/-- `SpeechToTextV1.train_custom_model`: POST with two optional query
parameters; the customization id is substituted raw into the URL. -/
def train_custom_model (customization_id : String)
    (customization_weight word_type : Option PyVal) : Request :=
  { method := "POST"
    url := "/v1/customizations/" ++ customization_id ++ "/train"
    headers := []
    params := stripAbsent
      [("customization_weight", customization_weight),
       ("word_type", word_type)]
    data := Option.none
    files := [] }

/-- `SpeechToTextV1.add_corpus`: both path variables are substituted raw
into the URL template; when `allow_overwrite` is `None` the source replaces
it by `False` before building the query, so the flag is always sent. -/
def add_corpus (customization_id corpus_name : String) (file_data : String)
    (allow_overwrite : Option Bool) : Request :=
  { method := "POST"
    url := "/v1/customizations/" ++ customization_id ++ "/corpora/" ++ corpus_name
    headers := [("Content-Type", Option.some "application/octet-stream")]
    params := stripAbsent
      [("allow_overwrite", Option.some (PyVal.bool (allow_overwrite.getD false)))]
    data := Option.some (Body.raw file_data)
    files := [] }

/-- `SpeechToTextV1.CustomWord`: an immutable record of three fields, each
holding whatever Python value the caller passed (default `None`). -/
structure CustomWord where
  word : PyObj
  sounds_like : PyObj
  display_as : PyObj
  deriving DecidableEq

/-- `CustomWord.__dict__`: the canonical field-mapping projection of a
record, keyed `word`, `sounds_like`, `display_as`. -/
def CustomWord.dict (w : CustomWord) : List (String × PyObj) :=
  [("word", w.word), ("sounds_like", w.sounds_like), ("display_as", w.display_as)]

/-- A record rebuilt from the three mapped values of a projection, via the
`CustomWord` constructor — the reconstruction direction of the round-trip. -/
def CustomWord.ofDict (d : List (String × PyObj)) : CustomWord :=
  { word := (d.lookup "word").getD PyObj.none
    sounds_like := (d.lookup "sounds_like").getD PyObj.none
    display_as := (d.lookup "display_as").getD PyObj.none }

/-- JSON rendering of one projected record, as `json.dumps` produces it
inside the `words` list of `add_custom_words`. -/
def CustomWord.jdict (w : CustomWord) : Json :=
  Json.obj (w.dict.map (fun p => (p.1, pyToJson p.2)))

/-- `SpeechToTextV1.add_custom_words`: POST with JSON body
`words: [one projection per record]`, in input order. -/
def add_custom_words (customization_id : String)
    (custom_words : List CustomWord) : Request :=
  { method := "POST"
    url := "/v1/customizations/" ++ customization_id ++ "/words"
    headers := [("content-type", Option.some "application/json")]
    params := []
    data := Option.some (Body.json (Json.obj
      [("words", Json.arr (custom_words.map CustomWord.jdict))]))
    files := [] }

/-- `SpeechToTextV1.add_custom_word`: PUT keyed by the word in the URL, with
only the `sounds_like`/`display_as` fragment as JSON body. -/
def add_custom_word (customization_id : String)
    (custom_word : CustomWord) : Request :=
  { method := "PUT"
    url := "/v1/customizations/" ++ customization_id ++ "/words/"
             ++ pyStr custom_word.word
    headers := [("content-type", Option.some "application/json")]
    params := []
    data := Option.some (Body.json (Json.obj
      [("sounds_like", pyToJson custom_word.sounds_like),
       ("display_as", pyToJson custom_word.display_as)]))
    files := [] }

/-- The `word_type` validation of `list_custom_words`: a falsy value adds
nothing; a truthy value inside the enumeration becomes a query entry; any
other truthy value raises `KeyError`. -/
def checkWordType : Option String → Except String (List (String × PyVal))
  | Option.none => Except.ok []
  | Option.some wt =>
      if wt = "" then Except.ok []
      else if wt ∈ ["all", "user", "corpora"] then
        Except.ok [("word_type", PyVal.str wt)]
      else Except.error "word type must be all, user, or corpora"

/-- The `sort` validation of `list_custom_words`, same shape as the
`word_type` validation. -/
def checkSort : Option String → Except String (List (String × PyVal))
  | Option.none => Except.ok []
  | Option.some s =>
      if s = "" then Except.ok []
      else if s ∈ ["alphabetical", "count"] then
        Except.ok [("sort", PyVal.str s)]
      else Except.error "sort must be alphabetical or count"

/-- `SpeechToTextV1.list_custom_words`: validates `word_type` first, then
`sort`, then builds the GET request from the accumulated query entries. -/
def list_custom_words (customization_id : String)
    (word_type sortKey : Option String) : Except String Request :=
  match checkWordType word_type with
  | Except.error e => Except.error e
  | Except.ok q1 =>
      match checkSort sortKey with
      | Except.error e => Except.error e
      | Except.ok q2 =>
          Except.ok
            { method := "GET"
              url := "/v1/customizations/" ++ customization_id ++ "/words"
              headers := []
              params := q1 ++ q2
              data := Option.none
              files := [] }

/-- The polymorphic argument of `get_custom_word`/`delete_custom_word`: a
bare string or a `CustomWord` record (`isinstance(custom_word, str)`). -/
inductive WordArg
  | ofString (s : String)
  | ofRecord (w : CustomWord)

/-- The word string extracted from a polymorphic word argument. -/
def WordArg.toWord : WordArg → String
  | WordArg.ofString s => s
  | WordArg.ofRecord w => pyStr w.word

/-- `SpeechToTextV1.get_custom_word`: GET with both path variables
substituted raw into the URL template. -/
def get_custom_word (customization_id : String)
    (custom_word : WordArg) : Request :=
  { method := "GET"
    url := "/v1/customizations/" ++ customization_id ++ "/words/"
             ++ custom_word.toWord
    headers := []
    params := []
    data := Option.none
    files := [] }

/-- The URL of the request descriptor, when one was built. -/
def urlOf : Except String Request → Option String
  | Except.ok r => Option.some r.url
  | Except.error _ => Option.none

/-- The query parameters of the request descriptor, when one was built. -/
def paramsOf : Except String Request → Option (List (String × PyVal))
  | Except.ok r => Option.some r.params
  | Except.error _ => Option.none

/-- The key set of a JSON object body. -/
def bodyKeys (r : Request) : List String :=
  match r.data with
  | Option.some (Body.json (Json.obj fs)) => fs.map Prod.fst
  | _ => []

/-- Every key of a stripped query-parameter mapping comes from an entry
whose value was explicitly provided. -/
theorem stripAbsent_key_provided (ps : List (String × Option PyVal)) (k : String) :
    k ∈ (stripAbsent ps).map Prod.fst → ∃ v, (k, Option.some v) ∈ ps := by
  induction ps with
  | nil => intro h; simp [stripAbsent] at h
  | cons p ps ih =>
      obtain ⟨k1, v1⟩ := p
      cases v1 with
      | none =>
          intro h
          rw [show stripAbsent ((k1, Option.none) :: ps) = stripAbsent ps from rfl] at h
          obtain ⟨v, hv⟩ := ih h
          exact ⟨v, List.mem_cons_of_mem _ hv⟩
      | some v =>
          intro h
          rw [show stripAbsent ((k1, Option.some v) :: ps) = (k1, v) :: stripAbsent ps from rfl] at h
          simp only [List.map_cons, List.mem_cons] at h
          cases h with
          | inl h => exact ⟨v, by simp [h]⟩
          | inr h =>
              obtain ⟨w, hw⟩ := ih h
              exact ⟨w, List.mem_cons_of_mem _ hw⟩

/-- Claim C2: `delete_session`, `get_session` and `recognize_session` all
fail fast with the `ValueError` message when `session_id` is `None`; no
request descriptor is constructed, so the transport is never invoked. -/
theorem session_ops_fail_fast_on_missing_session_id
    (te au : Option String) (ct : String)
    (p1 p2 p3 p4 p5 p6 p7 p8 p9 p10 : Option PyVal)
    (kw : Option (List String)) (m : Option String) (u : Option Upload)
    (uct ufn : Option String) :
    delete_session Option.none = Except.error "session_id must be provided" ∧
    get_session Option.none = Except.error "session_id must be provided" ∧
    recognize_session Option.none te au ct p1 p2 kw p3 p4 p5 p6 p7 p8 p9 p10
        m u uct ufn
      = Except.error "session_id must be provided" :=
  ⟨rfl, rfl, rfl⟩

/-- Claim C3 (amended): only the session operations percent-encode their
path variable; `add_corpus` and `get_custom_word` substitute the
caller-supplied values raw into their URL templates. -/
theorem path_var_encoding_split (sid cid cn fd w : String) (ao : Option Bool) :
    urlOf (delete_session (Option.some sid))
      = Option.some ("/v1/sessions/" ++ percentEncode sid) ∧
    urlOf (get_session (Option.some sid))
      = Option.some ("/v1/sessions/" ++ percentEncode sid ++ "/recognize") ∧
    (add_corpus cid cn fd ao).url
      = "/v1/customizations/" ++ cid ++ "/corpora/" ++ cn ∧
    (get_custom_word cid (WordArg.ofString w)).url
      = "/v1/customizations/" ++ cid ++ "/words/" ++ w :=
  ⟨rfl, rfl, rfl, rfl⟩

/-- Claim C3 counterexample: `get_custom_word` substitutes the word raw, so
for the word `"a b"` the produced URL keeps the space instead of the
percent-encoded `"a%20b"` — the path variable is not percent-encoded. -/
theorem getCustomWord_does_not_encode_path_vars :
    (get_custom_word "cid" (WordArg.ofString "a b")).url
      = "/v1/customizations/cid/words/a b" ∧
    percentEncode "a b" = "a%20b" ∧
    (get_custom_word "cid" (WordArg.ofString "a b")).url
      ≠ "/v1/customizations/cid/words/" ++ percentEncode "a b" := by
  refine ⟨rfl, ?_, ?_⟩ <;> decide

/-- Claim C9: projecting a `CustomWord` to its field mapping and rebuilding a
record from the three mapped values yields the original record. -/
theorem customWord_roundtrip (w : CustomWord) :
    CustomWord.ofDict (CustomWord.dict w) = w := by
  cases w
  rfl

/-- Claim C10: a falsy `word_type` or `sort` value (the empty string) is not
checked against the enumeration: no error is raised, the corresponding query
parameter is omitted, and the request is built. -/
theorem listCustomWords_falsy_treated_absent (cid : String) :
    list_custom_words cid (Option.some "") (Option.some "")
      = Except.ok
          { method := "GET"
            url := "/v1/customizations/" ++ cid ++ "/words"
            headers := []
            params := []
            data := Option.none
            files := [] } :=
  rfl

/-- Claim C5: `add_custom_word` PUTs to a URL holding the customization id
and the record's word, with a JSON body carrying exactly the keys
`sounds_like` and `display_as` bound to the record's fields; `word` is not
among the body keys. -/
theorem addCustomWord_request_shape (cid : String) (w : CustomWord) :
    (add_custom_word cid w).method = "PUT" ∧
    (add_custom_word cid w).url
      = "/v1/customizations/" ++ cid ++ "/words/" ++ pyStr w.word ∧
    (add_custom_word cid w).data
      = Option.some (Body.json (Json.obj
          [("sounds_like", pyToJson w.sounds_like),
           ("display_as", pyToJson w.display_as)])) ∧
    bodyKeys (add_custom_word cid w) = ["sounds_like", "display_as"] ∧
    "word" ∉ bodyKeys (add_custom_word cid w) := by
  refine ⟨rfl, rfl, rfl, rfl, ?_⟩
  have h : bodyKeys (add_custom_word cid w) = ["sounds_like", "display_as"] := rfl
  rw [h]
  decide

/-- Claim C1 (amended): absent parameters are omitted from the serialized
query-parameter mapping — every key of `recognize`'s query parameters comes
from an explicitly provided argument — while the JSON body of
`add_custom_word` always carries its two fixed keys, serialized as `null`
when the record's fields are absent. -/
theorem queryParams_omit_absent (audio ct : String)
    (a1 a2 a3 a4 a5 a6 a7 a8 a9 a10 a11 a12 a13 a14 a15 : Option PyVal)
    (cid : String) (w : CustomWord) :
    (∀ k, k ∈ (recognize audio ct a1 a2 a3 a4 a5 a6 a7 a8 a9 a10 a11 a12 a13
        a14 a15).params.map Prod.fst →
      ∃ v, (k, Option.some v)
        ∈ recognizeParams a1 a2 a3 a4 a5 a6 a7 a8 a9 a10 a11 a12 a13 a14 a15) ∧
    (add_custom_word cid w).data
      = Option.some (Body.json (Json.obj
          [("sounds_like", pyToJson w.sounds_like),
           ("display_as", pyToJson w.display_as)])) := by
  constructor
  · intro k hk
    exact stripAbsent_key_provided _ k hk
  · rfl

/-- Witness for claim C1's theorem: with only `model` provided, the key
`model` appears in the query parameters and the theorem identifies the
provided entry it came from. -/
theorem queryParams_omit_absent_witness :
    ∃ v, ("model", Option.some v)
      ∈ recognizeParams Option.none Option.none Option.none Option.none
          Option.none (Option.some (PyVal.str "en-US_BroadbandModel"))
          Option.none Option.none Option.none Option.none Option.none
          Option.none Option.none Option.none Option.none :=
  (queryParams_omit_absent "audiobytes" "audio/wav"
      Option.none Option.none Option.none Option.none Option.none
      (Option.some (PyVal.str "en-US_BroadbandModel")) Option.none Option.none
      Option.none Option.none Option.none Option.none Option.none Option.none
      Option.none "cid"
      { word := PyObj.none, sounds_like := PyObj.none, display_as := PyObj.none }).1
    "model" (by decide)

/-- Claim C1 counterexample: `add_custom_word` with a record whose
`sounds_like` and `display_as` are absent still sends both keys, bound to
JSON `null` — a key is sent with a null value. -/
theorem addCustomWord_serializes_null_for_absent_fields :
    (add_custom_word "cid"
        { word := PyObj.str "hello", sounds_like := PyObj.none,
          display_as := PyObj.none }).data
      = Option.some (Body.json (Json.obj
          [("sounds_like", Json.null), ("display_as", Json.null)])) :=
  rfl

/-- Claim C4 (amended): a truthy `word_type` outside the enumeration, or a
truthy `sort` outside its enumeration, fails fast with the `KeyError`
message before any request is built; `word_type = "all"` builds the request
with the `word_type=all` query parameter. -/
theorem listCustomWords_enum_validation
    (cid wt st : String) (s2 : Option String)
    (hwt1 : wt ≠ "") (hwt2 : wt ∉ ["all", "user", "corpora"])
    (hst1 : st ≠ "") (hst2 : st ∉ ["alphabetical", "count"]) :
    list_custom_words cid (Option.some wt) s2
      = Except.error "word type must be all, user, or corpora" ∧
    list_custom_words cid Option.none (Option.some st)
      = Except.error "sort must be alphabetical or count" ∧
    list_custom_words cid (Option.some "all") Option.none
      = Except.ok
          { method := "GET"
            url := "/v1/customizations/" ++ cid ++ "/words"
            headers := []
            params := [("word_type", PyVal.str "all")]
            data := Option.none
            files := [] } := by
  refine ⟨?_, ?_, rfl⟩
  · simp [list_custom_words, checkWordType, hwt1, hwt2]
  · simp [list_custom_words, checkWordType, checkSort, hst1, hst2]

/-- Witness for claim C4's theorem at `word_type = "bogus"` and
`sort = "bogus"`. -/
theorem listCustomWords_enum_validation_witness :
    list_custom_words "cid" (Option.some "bogus") Option.none
      = Except.error "word type must be all, user, or corpora" ∧
    list_custom_words "cid" Option.none (Option.some "bogus")
      = Except.error "sort must be alphabetical or count" ∧
    list_custom_words "cid" (Option.some "all") Option.none
      = Except.ok
          { method := "GET"
            url := "/v1/customizations/" ++ "cid" ++ "/words"
            headers := []
            params := [("word_type", PyVal.str "all")]
            data := Option.none
            files := [] } :=
  listCustomWords_enum_validation "cid" "bogus" "bogus" Option.none
    (by decide) (by decide) (by decide) (by decide)

/-- Claim C4 counterexample: the empty string is a value outside the closed
enumeration, yet supplying it as `word_type` does not fail — the request is
built with no `word_type` query parameter. -/
theorem listCustomWords_empty_word_type_not_rejected :
    list_custom_words "cid" (Option.some "") Option.none
      = Except.ok
          { method := "GET"
            url := "/v1/customizations/" ++ "cid" ++ "/words"
            headers := []
            params := []
            data := Option.none
            files := [] } :=
  rfl

/-- Claim C6: `add_custom_words` POSTs a JSON body holding a single `words`
key bound to the list of field-mapping projections of the input records, one
per record, in input order. -/
theorem addCustomWords_batch_shape (cid : String) (ws : List CustomWord) :
    (add_custom_words cid ws).method = "POST" ∧
    (add_custom_words cid ws).data
      = Option.some (Body.json (Json.obj
          [("words", Json.arr (ws.map CustomWord.jdict))])) ∧
    (∀ w : CustomWord, CustomWord.jdict w
      = Json.obj [("word", pyToJson w.word),
                  ("sounds_like", pyToJson w.sounds_like),
                  ("display_as", pyToJson w.display_as)]) ∧
    (ws.map CustomWord.jdict).length = ws.length ∧
    ∀ i : Nat, (ws.map CustomWord.jdict)[i]? = (ws[i]?).map CustomWord.jdict := by
  refine ⟨rfl, rfl, fun w => rfl, by simp, ?_⟩
  intro i
  simp

/-- Claim C7 (amended): `add_corpus` with `allow_overwrite` absent sends the
query flag `allow_overwrite=false`, the fixed `application/octet-stream`
content type and the raw file bytes; among query parameters this is the only
non-omission default — every other operation's absent parameters produce an
empty query — while `create_custom_model` injects body defaults instead. -/
theorem addCorpus_default_allow_overwrite
    (cid cn fd audio ct sid : String) :
    (add_corpus cid cn fd Option.none).params
      = [("allow_overwrite", PyVal.bool false)] ∧
    (add_corpus cid cn fd Option.none).headers
      = [("Content-Type", Option.some "application/octet-stream")] ∧
    (add_corpus cid cn fd Option.none).data = Option.some (Body.raw fd) ∧
    (recognize audio ct Option.none Option.none Option.none Option.none
        Option.none Option.none Option.none Option.none Option.none
        Option.none Option.none Option.none Option.none Option.none
        Option.none).params = [] ∧
    (create_session Option.none Option.none Option.none Option.none).params
      = [] ∧
    (train_custom_model cid Option.none Option.none).params = [] ∧
    paramsOf (list_custom_words cid Option.none Option.none)
      = Option.some [] ∧
    paramsOf (recognize_session (Option.some sid) Option.none Option.none ct
        Option.none Option.none Option.none Option.none Option.none
        Option.none Option.none Option.none Option.none Option.none
        Option.none Option.none Option.none Option.none Option.none)
      = Option.some [] :=
  ⟨rfl, rfl, rfl, rfl, rfl, rfl, rfl, rfl⟩

/-- Claim C7 counterexample: `create_custom_model` called with `description`
and `base_model` absent still injects both into the JSON body with their
defaults, so `allow_overwrite` is not the only parameter injected with a
default instead of being omitted when absent. -/
theorem createCustomModel_injects_body_defaults :
    (create_custom_model "mymodel" Option.none Option.none).data
      = Option.some (Body.json (Json.obj
          [("name", Json.str "mymodel"),
           ("description", Json.str ""),
           ("base_model_name", Json.str "en-US_BroadbandModel")])) :=
  rfl

/-- Claim C8: in a multipart `recognize_session` call the metadata part is a
`text/plain` part with no filename; a supplied upload without an explicit
filename takes the upload object's `name` attribute as filename; and with no
upload content type the upload part's content type defaults to
`application/octet-stream`. -/
theorem recognizeSession_multipart_defaults
    (sid : String) (te au : Option String) (ct : String)
    (p1 p2 p3 p4 p5 p6 p7 p8 p9 p10 : Option PyVal)
    (kw : Option (List String))
    (m : String) (u : Upload) (uct ufn : Option String)
    (hm : m ≠ "") (hfn : pyTruthy ufn = false) :
    (∃ req, recognize_session (Option.some sid) te au ct p1 p2 kw p3 p4 p5 p6
        p7 p8 p9 p10 (Option.some m) (Option.some u) uct ufn
        = Except.ok req ∧
      req.files
        = [("metadata", Option.some
              { filename := Option.none, payload := m, mime := "text/plain" }),
           ("upload", Option.some
              { filename := inferFilename ufn u.name
                payload := u.content
                mime := defaultMime uct })]) ∧
    (∀ n, u.name = Option.some n → inferFilename ufn u.name = Option.some n) ∧
    (uct = Option.none → defaultMime uct = "application/octet-stream") := by
  refine ⟨⟨_, rfl, ?_⟩, ?_, ?_⟩
  · simp [metadataTuple, uploadTuple, hm]
  · intro n hn
    simp [inferFilename, hfn, hn]
  · intro h
    subst h
    rfl

/-- Witness for claim C8's theorem: a concrete multipart call with metadata
`"meta"`, an upload object named `"clip.wav"`, no explicit filename and no
upload content type. -/
theorem recognizeSession_multipart_defaults_witness :
    (∃ req, recognize_session (Option.some "s1") Option.none Option.none
        "audio/basic" Option.none Option.none Option.none Option.none
        Option.none Option.none Option.none Option.none Option.none
        Option.none Option.none (Option.some "meta")
        (Option.some { name := Option.some "clip.wav", content := "bytes" })
        Option.none Option.none
        = Except.ok req ∧
      req.files
        = [("metadata", Option.some
              { filename := Option.none, payload := "meta", mime := "text/plain" }),
           ("upload", Option.some
              { filename := inferFilename Option.none (Option.some "clip.wav")
                payload := "bytes"
                mime := defaultMime Option.none })]) ∧
    (∀ n, (Option.some "clip.wav" : Option String) = Option.some n →
      inferFilename Option.none (Option.some "clip.wav") = Option.some n) ∧
    ((Option.none : Option String) = Option.none →
      defaultMime Option.none = "application/octet-stream") :=
  recognizeSession_multipart_defaults "s1" Option.none Option.none
    "audio/basic" Option.none Option.none Option.none Option.none Option.none
    Option.none Option.none Option.none Option.none Option.none Option.none
    "meta" { name := Option.some "clip.wav", content := "bytes" }
    Option.none Option.none (by decide) rfl

end WatsonSTT
